import Mathlib

/-!
Verification of the suplalite server's protocol handlers
(`suplalite/server/handlers.py`) against its natural-language
specification.  The handler logic is translated directly from the
source; the world-state operations (`state.py`), the value codec
(`proto.py`/`encoding.py`) and `utils.batched`, whose sources are not
part of the handler module, are modelled from the specification's
description of them (each such definition carries a doc comment saying
so).  Machine integers are modelled as `Nat`; byte strings as lists of
naturals; Python exceptions (`KeyError`, `IndexError`) as `Option`.
-/

namespace SuplaLite

/-- Byte strings (Python `bytes`) as lists of naturals. -/
abbrev Bytes := List Nat

/-- The eight-zero-bytes constant `b"\x00" * 8` used for sub-values. -/
def zeros8 : Bytes := [0, 0, 0, 0, 0, 0, 0, 0]

/-- `proto.ResultCode` (the constructors used by the handlers). -/
inductive ResultCode
  | FALSE
  | TRUE
  | AUTHORIZED
  | UNAUTHORIZED
  deriving DecidableEq, Repr

/-- `proto.ChannelType` (the constructors used by the server config and
handlers). -/
inductive ChannelType
  | RELAY
  | THERMOMETER
  | HUMIDITYSENSOR
  | HUMIDITYANDTEMPSENSOR
  | DIMMER
  | GENERAL_PURPOSE_MEASUREMENT
  deriving DecidableEq, Repr

/-- `proto.ActionType` (the constructors exercised by the handlers and
tests). -/
inductive ActionType
  | OPEN
  | TURN_ON
  | TURN_OFF
  | TOGGLE
  | INTERRUPT
  | EXECUTE
  | SET_RGBW_PARAMETERS
  deriving DecidableEq, Repr

/-- `proto.ActionSubjectType`. -/
inductive ActionSubjectType
  | CHANNEL
  | CHANNELGROUP
  | SCENE
  | SCHEDULE
  deriving DecidableEq, Repr

/-- `proto.Target` for `CS_SET_VALUE`. -/
inductive Target
  | CHANNEL
  | CHANNELGROUP
  | IODEVICE
  deriving DecidableEq, Repr

/-- `proto.ACTIVITY_TIMEOUT_MIN` (spec section 6: range 30-240 seconds). -/
def ACTIVITY_TIMEOUT_MIN : Nat := 30

/-- `proto.ACTIVITY_TIMEOUT_MAX`. -/
def ACTIVITY_TIMEOUT_MAX : Nat := 240

/-- `proto.PROTO_VERSION` (spec section 6: currently 23). -/
def PROTO_VERSION : Nat := 23

/-- `proto.PROTO_VERSION_MIN` (configurable minimum; the value is
immaterial to the claims, only that it is a fixed constant). -/
def PROTO_VERSION_MIN : Nat := 1

/-- `proto.CHANNELPACK_MAXCOUNT`: maximum channels per channel pack.
Only its positivity matters to the claims. -/
def CHANNELPACK_MAXCOUNT : Nat := 20

/-- `proto.CHANNELVALUE_PACK_MAXCOUNT`: maximum items per channel-value
pack. -/
def CHANNELVALUE_PACK_MAXCOUNT : Nat := 20

/-- Channel funcs are plain enum codes; the handlers never branch on
them, only compare for equality, so they are modelled as naturals. -/
def FUNC_POWERSWITCH : Nat := 130

/-- `proto.ChannelFunc.THERMOMETER`. -/
def FUNC_THERMOMETER : Nat := 40

/-- `proto.ChannelFunc.DIMMER`. -/
def FUNC_DIMMER : Nat := 180

/-- Channel flags are a bitmask; the handlers only compare them, so
they are modelled as naturals.  `proto.ChannelFlag.CHANNELSTATE` is
the bit 0x10000. -/
def FLAG_CHANNELSTATE : Nat := 65536

/-- A channel in the world state (`state.py` `Channel`).  The optional
typed `config` member is omitted: none of the verified handlers read
it. -/
structure Channel where
  id : Nat
  device_id : Nat
  name : String
  caption : String
  type : ChannelType
  func : Nat
  flags : Nat
  alt_icon : Nat
  user_icon : Nat
  value : Bytes
  last_value : Option Bytes
  deriving DecidableEq, Repr

/-- A device in the world state (`state.py` `Device`). -/
structure Device where
  id : Nat
  name : String
  guid : Bytes
  manufacturer_id : Nat
  product_id : Nat
  channel_ids : List Nat
  proto_version : Nat
  online : Bool
  deriving DecidableEq, Repr

/-- One step of a scene: channel by name, an action and an optional
parameter (spec section 3). -/
structure SceneStep where
  channel_name : String
  action : ActionType
  param : Bytes
  deriving DecidableEq, Repr

/-- A scene in the world state. -/
structure Scene where
  id : Nat
  name : String
  caption : String
  steps : List SceneStep
  deriving DecidableEq, Repr

/-- A client in the world state. -/
structure Client where
  id : Nat
  guid : Bytes
  connected : Bool
  authorized : Bool
  deriving DecidableEq, Repr

/-- The in-memory world state (`state.py` `ServerState`): registries of
devices, channels, scenes and clients, keyed by their dense ids and
held in insertion order. -/
structure ServerState where
  devices : List Device
  channels : List Channel
  scenes : List Scene
  clients : List Client
  deriving DecidableEq, Repr

/-- Modelled from the spec: `state.py` is not among the sources.
`get_device(device_id)` looks a device up by id; `KeyError` is `none`. -/
def ServerState.get_device (st : ServerState) (device_id : Nat) : Option Device :=
  st.devices.find? (fun d => d.id == device_id)

/-- Modelled from the spec: `get_device_id(guid)` maps a configured
GUID to its device id (spec section 3: GUID to device_id is bijective);
`KeyError` is `none`. -/
def ServerState.get_device_id (st : ServerState) (guid : Bytes) : Option Nat :=
  (st.devices.find? (fun d => d.guid == guid)).map (fun d => d.id)

/-- Modelled from the spec: `get_channel(channel_id)` looks a channel
up by id; `KeyError` is `none`. -/
def ServerState.get_channel (st : ServerState) (channel_id : Nat) : Option Channel :=
  st.channels.find? (fun c => c.id == channel_id)

/-- The update applied to a channel by `set_channel_value`: the opaque
value is replaced and, for DIMMER channels, `last_value` retains the
most recent value with non-zero brightness (brightness is the first
byte of the encoded value). -/
def Channel.setValue (c : Channel) (v : Bytes) : Channel :=
  { c with
    value := v
    last_value :=
      if c.type = ChannelType.DIMMER ∧ v.headD 0 ≠ 0 then some v else c.last_value }

/-- Modelled from the spec: `state.py` section 4.3 -
"set_channel_value(channel_id, value): replaces the opaque value; for
DIMMER values `last_value` retains the most-recent non-zero
brightness." -/
def ServerState.set_channel_value (st : ServerState) (channel_id : Nat) (v : Bytes) :
    ServerState :=
  { st with
    channels := st.channels.map (fun c => if c.id = channel_id then c.setValue v else c) }

/-- Modelled from the spec: `device_connected(device_id, proto_version,
event_sink)` "atomically transitions the device to online, stores the
event sink, returns false if already online" (section 4.3).  The event
sink itself is handled by the event-queue model, not the state. -/
def ServerState.device_connected (st : ServerState) (device_id proto_version : Nat) :
    Bool × ServerState :=
  match st.get_device device_id with
  | none => (false, st)
  | some d =>
    if d.online then (false, st)
    else
      (true,
        { st with
          devices := st.devices.map (fun d' =>
            if d'.id = device_id then { d' with online := true, proto_version := proto_version }
            else d') })

/-- Modelled from the spec: `add_client(guid)` creates the client on
first registration and returns the existing dense id on reconnection
(section 3: "reconnection reuses the existing client_id"). -/
def ServerState.add_client (st : ServerState) (guid : Bytes) : Nat × ServerState :=
  match st.clients.find? (fun c => c.guid == guid) with
  | some c => (c.id, st)
  | none =>
    let id := st.clients.length + 1
    (id, { st with clients := st.clients ++ [⟨id, guid, false, false⟩] })

/-- Modelled from the spec: `client_connected` mirrors
`device_connected`: returns false if the client is already connected,
otherwise marks it connected. -/
def ServerState.client_connected (st : ServerState) (client_id : Nat) :
    Bool × ServerState :=
  match st.clients.find? (fun c => c.id == client_id) with
  | none => (false, st)
  | some c =>
    if c.connected then (false, st)
    else
      (true,
        { st with
          clients := st.clients.map (fun c' =>
            if c'.id = client_id then { c' with connected := true } else c') })

/-- Modelled from the spec and `tests/proto_test.py` scenarios:
`proto.py` is not among the sources.  `TRelayChannel_Value(on, flags=0)`
encodes to eight bytes with the `on` flag in the first byte
(spec scenario 2: TURN_ON gives `01 00x7`, TURN_OFF gives `00x8`). -/
def encodeRelayValue (onFlag : Bool) : Bytes :=
  [if onFlag then 1 else 0, 0, 0, 0, 0, 0, 0, 0]

/-- Modelled from the spec: decoding `TRelayChannel_Value` reads the
`on` flag from the first byte of the stored value (Python bool of a
`c_uint8`: any non-zero byte is on). -/
def decodeRelayOn (v : Bytes) : Bool :=
  v.headD 0 != 0

/-- Modelled from the spec and `tests/server_test.py` dimmer tests:
`TDimmerChannel_Value(brightness)` encodes to eight bytes with the
brightness in the first byte (brightness 50 gives `32 00x7`,
brightness 100 gives `64 00x7`). -/
def encodeDimmerValue (brightness : Nat) : Bytes :=
  [brightness, 0, 0, 0, 0, 0, 0, 0]

/-- Server-scope events with their payloads (`events.py` `EventId`
restricted to the server-scope events the verified handlers emit). -/
inductive ServerEvent
  | channel_register_value (channel_id : Nat) (value : Bytes)
  | device_connected (device_id : Nat)
  | channel_value_changed (channel_id : Nat) (value : Bytes)
  | channel_set_value (channel_id : Nat) (value : Bytes)
  | client_connected (client_id : Nat)
  deriving DecidableEq, Repr

/-- Client-scope event ids enqueued on a client's own queue after
registration. -/
inductive ClientEventId
  | SEND_LOCATIONS
  | SEND_CHANNELS
  | SEND_SCENES
  deriving DecidableEq, Repr

/-- `proto.TCS_Action`: a `CS_EXECUTE_ACTION` request. -/
structure TCS_Action where
  action_id : ActionType
  subject_id : Nat
  subject_type : ActionSubjectType
  param : Bytes
  deriving DecidableEq, Repr

/-- `proto.TSC_ActionExecutionResult`. -/
structure TSC_ActionExecutionResult where
  result_code : ResultCode
  action_id : ActionType
  subject_id : Nat
  subject_type : ActionSubjectType
  deriving DecidableEq, Repr

/-- The failure result of `client_execute_action`: `ResultCode.FALSE`
echoing the request's action id, subject id and subject type. -/
def failResult (msg : TCS_Action) : TSC_ActionExecutionResult :=
  ⟨ResultCode.FALSE, msg.action_id, msg.subject_id, msg.subject_type⟩

/-- Everything `client_execute_action` produces: the reply record, the
world state after the call, the server-scope events enqueued, and
whether the connection was marked errored. -/
structure ActionOutcome where
  result : TSC_ActionExecutionResult
  state : ServerState
  events : List ServerEvent
  error : Bool
  deriving DecidableEq, Repr

/-- The success outcome of `client_execute_action`: result TRUE echoing
the request, the channel value replaced by `v`, one `CHANNEL_SET_VALUE`
event, connection not errored. -/
def successOutcome (st : ServerState) (msg : TCS_Action) (v : Bytes) : ActionOutcome :=
  ⟨⟨ResultCode.TRUE, msg.action_id, msg.subject_id, msg.subject_type⟩,
    st.set_channel_value msg.subject_id v,
    [ServerEvent.channel_set_value msg.subject_id v],
    false⟩

/-- `handlers.client_execute_action`, translated from
`handlers.py:354-425`: only CHANNEL subjects are handled; RELAY
channels support TURN_ON / TURN_OFF / TOGGLE, DIMMER channels
TURN_ON / TURN_OFF; every other case returns `failResult` and changes
nothing. -/
def client_execute_action (st : ServerState) (msg : TCS_Action) : ActionOutcome :=
  if msg.subject_type ≠ ActionSubjectType.CHANNEL then ⟨failResult msg, st, [], false⟩
  else
    match st.get_channel msg.subject_id with
    | none => ⟨failResult msg, st, [], false⟩
    | some channel =>
      if channel.type = ChannelType.RELAY then
        if msg.action_id = ActionType.TURN_ON then
          successOutcome st msg (encodeRelayValue true)
        else if msg.action_id = ActionType.TURN_OFF then
          successOutcome st msg (encodeRelayValue false)
        else if msg.action_id = ActionType.TOGGLE then
          successOutcome st msg (encodeRelayValue (!decodeRelayOn channel.value))
        else ⟨failResult msg, st, [], false⟩
      else if channel.type = ChannelType.DIMMER then
        if msg.action_id = ActionType.TURN_ON then
          successOutcome st msg
            (match channel.last_value with
             | some v => if v.isEmpty then encodeDimmerValue 100 else v
             | none => encodeDimmerValue 100)
        else if msg.action_id = ActionType.TURN_OFF then
          successOutcome st msg (encodeDimmerValue 0)
        else ⟨failResult msg, st, [], false⟩
      else ⟨failResult msg, st, [], false⟩

/-- `proto.TCS_NewValue`: a `CS_SET_VALUE` request. -/
structure TCS_NewValue where
  value_id : Nat
  target : Target
  value : Bytes
  deriving DecidableEq, Repr

/-- `handlers.client_set_value` (`handlers.py:429-447`): fire and
forget; an unsupported target or unknown channel id only logs, an
existing channel gets its value replaced and a `CHANNEL_SET_VALUE`
event. -/
def client_set_value (st : ServerState) (msg : TCS_NewValue) :
    ServerState × List ServerEvent :=
  if msg.target ≠ Target.CHANNEL then (st, [])
  else
    match st.get_channel msg.value_id with
    | none => (st, [])
    | some _ =>
      (st.set_channel_value msg.value_id msg.value,
        [ServerEvent.channel_set_value msg.value_id msg.value])

/-- One channel entry of a `DS_REGISTER_DEVICE_E` request
(`proto.TDS_DeviceChannel_B`): declared number, type, default func,
flags and the device-supplied initial value. -/
structure ChannelRegMsg where
  number : Nat
  type : ChannelType
  default_func : Nat
  flags : Nat
  value : Bytes
  deriving DecidableEq, Repr

/-- `proto.TDS_RegisterDevice_E` (the fields the handler reads). -/
structure TDS_RegisterDevice_E where
  guid : Bytes
  name : String
  soft_ver : String
  manufacturer_id : Nat
  product_id : Nat
  channels : List ChannelRegMsg
  deriving DecidableEq, Repr

/-- `proto.TSD_RegisterDeviceResult`. -/
structure TSD_RegisterDeviceResult where
  result_code : ResultCode
  activity_timeout : Nat
  version : Nat
  version_min : Nat
  deriving DecidableEq, Repr

/-- The negative registration result sent on every failure path of
`register_device`. -/
def registerFalse : TSD_RegisterDeviceResult :=
  ⟨ResultCode.FALSE, ACTIVITY_TIMEOUT_MIN, PROTO_VERSION, PROTO_VERSION_MIN⟩

/-- Everything `register_device` produces: the reply record, the world
state after the call, the server-scope events enqueued, and whether the
connection was marked errored. -/
structure DeviceRegOutcome where
  result : TSD_RegisterDeviceResult
  state : ServerState
  events : List ServerEvent
  error : Bool
  deriving DecidableEq, Repr

/-- The per-channel verification loop of `register_device`
(`handlers.py:179-195`): walks `zip(channels, msg.channels)` checking
the declared number, the channel type and the default func against the
configured channel; returns whether a mismatch was found.  `none`
models the (unreachable in consistent states) `KeyError` of
`get_channel`. -/
def channels_check (st : ServerState) :
    List Nat → List ChannelRegMsg → Nat → Option Bool
  | _, [], _ => some false
  | [], _ :: _, _ => some false
  | channel_id :: ids, cmsg :: cmsgs, number =>
    match st.get_channel channel_id with
    | none => none
    | some channel =>
      if number ≠ cmsg.number then some true
      else if channel.type ≠ cmsg.type then some true
      else if channel.func ≠ cmsg.default_func then some true
      else channels_check st ids cmsgs (number + 1)

/-- The registration-value loop of `register_device`
(`handlers.py:224-229`): for each request channel in order, sets the
configured channel's value to the device-supplied initial value and
emits `CHANNEL_REGISTER_VALUE`.  `none` models the `IndexError` of
`device.channel_ids[channel_number]`. -/
def register_channels (channel_ids : List Nat) :
    ServerState → List ChannelRegMsg → Nat → Option (ServerState × List ServerEvent)
  | st, [], _ => some (st, [])
  | st, cfg :: rest, number =>
    match channel_ids[number]? with
    | none => none
    | some channel_id =>
      match register_channels channel_ids (st.set_channel_value channel_id cfg.value)
          rest (number + 1) with
      | none => none
      | some (st2, evs) =>
        some (st2, ServerEvent.channel_register_value channel_id cfg.value :: evs)

/-- `handlers.register_device` (`handlers.py:126-242`): looks the GUID
up, verifies manufacturer and product ids, channel count and the
per-channel (number, type, func), transitions the device online, then
sets and announces each channel's initial value and finally emits
`DEVICE_CONNECTED`.  `get_device_channels(device_id)` is the device's
ordered channel-id list.  `none` models an uncaught handler
exception. -/
def register_device (st : ServerState) (proto_version activity_timeout : Nat)
    (msg : TDS_RegisterDevice_E) : Option DeviceRegOutcome :=
  match st.get_device_id msg.guid with
  | none => some ⟨registerFalse, st, [], true⟩
  | some device_id =>
    match st.get_device device_id with
    | none => none
    | some device =>
      if device.manufacturer_id ≠ msg.manufacturer_id then
        some ⟨registerFalse, st, [], true⟩
      else if device.product_id ≠ msg.product_id then
        some ⟨registerFalse, st, [], true⟩
      else
        match channels_check st device.channel_ids msg.channels 0 with
        | none => none
        | some loopError =>
          if msg.channels.length ≠ device.channel_ids.length ∨ loopError then
            some ⟨registerFalse, st, [], true⟩
          else
            match st.device_connected device_id proto_version with
            | (false, _) => some ⟨registerFalse, st, [], true⟩
            | (true, st1) =>
              match register_channels device.channel_ids st1 msg.channels 0 with
              | none => none
              | some (st2, evs) =>
                some ⟨⟨ResultCode.TRUE, activity_timeout, PROTO_VERSION, PROTO_VERSION_MIN⟩,
                  st2, evs ++ [ServerEvent.device_connected device_id], false⟩

/-- `proto.TCS_RegisterClient_D` (the fields the handler reads). -/
structure TCS_RegisterClient_D where
  email : String
  password : String
  guid : Bytes
  name : String
  soft_ver : String
  server_name : String
  deriving DecidableEq, Repr

/-- `proto.TSC_RegisterClientResult_D`. -/
structure TSC_RegisterClientResult_D where
  result_code : ResultCode
  client_id : Nat
  location_count : Nat
  channel_count : Nat
  channel_group_count : Nat
  scene_count : Nat
  activity_timeout : Nat
  version : Nat
  version_min : Nat
  server_unix_timestamp : Nat
  deriving DecidableEq, Repr

/-- Everything `register_client` produces: the reply record, the world
state, the server-scope events, the events enqueued on the client's own
queue, and the error flag. -/
structure ClientRegOutcome where
  result : TSC_RegisterClientResult_D
  state : ServerState
  serverEvents : List ServerEvent
  clientEvents : List ClientEventId
  error : Bool
  deriving DecidableEq, Repr

/-- `handlers.register_client` (`handlers.py:272-308`): creates or
reuses the client id; a duplicate active connection is rejected with
FALSE and the connection errored; on success the handler emits
`CLIENT_CONNECTED` and enqueues `SEND_LOCATIONS`, `SEND_CHANNELS`,
`SEND_SCENES` on the client's own queue.  `now` stands for
`time.time()`. -/
def register_client (st : ServerState) (activity_timeout now : Nat)
    (msg : TCS_RegisterClient_D) : ClientRegOutcome :=
  let (client_id, st1) := st.add_client msg.guid
  match st1.client_connected client_id with
  | (false, _) =>
    ⟨⟨ResultCode.FALSE, client_id, 1, st1.channels.length, 0, 0,
        activity_timeout, PROTO_VERSION, PROTO_VERSION_MIN, now⟩,
      st1, [], [], true⟩
  | (true, st2) =>
    ⟨⟨ResultCode.TRUE, client_id, 1, st2.channels.length, 0, 0,
        activity_timeout, PROTO_VERSION, PROTO_VERSION_MIN, now⟩,
      st2, [ServerEvent.client_connected client_id],
      [ClientEventId.SEND_LOCATIONS, ClientEventId.SEND_CHANNELS,
        ClientEventId.SEND_SCENES],
      false⟩

/-- `handlers.client_get_next` (`handlers.py:343-350`): the handler
body is `pass` - location/channel/scene information is sent proactively
by the server, so a `CS_GET_NEXT` request changes nothing and sends
nothing. -/
def client_get_next (st : ServerState) : ServerState × List ServerEvent :=
  (st, [])

/-- The fuel-driven worker behind `batched`; fuel at least the list
length guarantees full batching. -/
def batchedGo (n : Nat) : Nat → List α → List (List α)
  | 0, xs => [xs]
  | fuel + 1, xs =>
    if xs.length ≤ n then [xs]
    else xs.take n :: batchedGo n fuel (xs.drop n)

/-- Modelled from the spec and `tests/utils_test.py`: `utils.py` is not
among the sources.  `batched(xs, n)` splits `xs` into consecutive
batches of at most `n` elements; an empty input yields one empty batch
(`batched([], 3) = [()]`). -/
def batched (xs : List α) (n : Nat) : List (List α) :=
  batchedGo n xs.length xs

/-- `items[-1].eol = True` on a Python list: fails with `IndexError`
(`none`) when the list is empty, otherwise applies `f` to the last
item. -/
def markLast (f : α → α) : List α → Option (List α)
  | [] => none
  | [x] => some [f x]
  | x :: y :: rest =>
    match markLast f (y :: rest) with
    | none => none
    | some zs => some (x :: zs)

/-- `proto.ChannelValue_B`: value, sub-value and sub-value type. -/
structure ChannelValue_B where
  value : Bytes
  sub_value : Bytes
  sub_value_type : Nat
  deriving DecidableEq, Repr

/-- `proto.TSC_Channel_D`: one channel entry of a
`SC_CHANNELPACK_UPDATE_D` pack. -/
structure TSC_Channel_D where
  eol : Bool
  id : Nat
  device_id : Nat
  location_id : Nat
  type : ChannelType
  func : Nat
  alt_icon : Nat
  user_icon : Nat
  manufacturer_id : Nat
  product_id : Nat
  flags : Nat
  protocol_version : Nat
  online : Bool
  value : ChannelValue_B
  caption : String
  deriving DecidableEq, Repr

/-- `proto.TSC_ChannelPack_D`. -/
structure TSC_ChannelPack_D where
  total_left : Nat
  items : List TSC_Channel_D
  deriving DecidableEq, Repr

/-- `proto.TSC_Location`. -/
structure TSC_Location where
  eol : Bool
  id : Nat
  caption : String
  deriving DecidableEq, Repr

/-- `proto.TSC_LocationPack`. -/
structure TSC_LocationPack where
  total_left : Nat
  items : List TSC_Location
  deriving DecidableEq, Repr

/-- `proto.TSC_Scene` (never instantiated by the handlers: the scene
pack sent to clients is always empty). -/
structure TSC_Scene where
  id : Nat
  deriving DecidableEq, Repr

/-- `proto.TSC_ScenePack`. -/
structure TSC_ScenePack where
  total_left : Nat
  items : List TSC_Scene
  deriving DecidableEq, Repr

/-- `proto.TSC_ChannelValue_B`: one entry of a
`SC_CHANNELVALUE_PACK_UPDATE_B` pack. -/
structure TSC_ChannelValue_B where
  eol : Bool
  id : Nat
  online : Bool
  value : ChannelValue_B
  deriving DecidableEq, Repr

/-- `proto.TSC_ChannelValuePack_B`. -/
structure TSC_ChannelValuePack_B where
  total_left : Nat
  items : List TSC_ChannelValue_B
  deriving DecidableEq, Repr

/-- The messages a client-scope event handler can push to its client. -/
inductive ScMessage
  | location_pack (msg : TSC_LocationPack)
  | channel_pack (msg : TSC_ChannelPack_D)
  | scene_pack (msg : TSC_ScenePack)
  | channel_value_pack (msg : TSC_ChannelValuePack_B)
  deriving DecidableEq, Repr

/-- `handlers.send_locations` (`handlers.py:491-498`): a single-item
location pack carrying the configured location name. -/
def send_locations (location_name : String) : TSC_LocationPack :=
  ⟨0, [⟨true, 1, location_name⟩]⟩

/-- `handlers.send_scenes` (`handlers.py:542-544`): always an empty
scene pack. -/
def send_scenes : TSC_ScenePack :=
  ⟨0, []⟩

/-- One `TSC_Channel_D` item of `send_channels` (`handlers.py:510-534`),
built from a channel and its owning device; `none` models the
`KeyError` of `devices[channel.device_id]`. -/
def buildChannelItem (st : ServerState) (channel : Channel) : Option TSC_Channel_D :=
  match st.get_device channel.device_id with
  | none => none
  | some device =>
    some ⟨false, channel.id, channel.device_id, 1, channel.type, channel.func,
      channel.alt_icon, channel.user_icon, device.manufacturer_id, device.product_id,
      65536, device.proto_version, device.online,
      ⟨channel.value, zeros8, 0⟩, channel.caption⟩

/-- The items of one batch of `send_channels`. -/
def buildChannelItems (st : ServerState) : List Channel → Option (List TSC_Channel_D)
  | [] => some []
  | c :: rest =>
    match buildChannelItem st c, buildChannelItems st rest with
    | some it, some its => some (it :: its)
    | _, _ => none

/-- The per-batch loop of `send_channels`: marks the last item of each
batch with `eol`, decrements `total_left` by the batch size, and packs
the items. -/
def sendChannelsGo (st : ServerState) :
    List (List Channel) → Nat → Option (List TSC_ChannelPack_D)
  | [], _ => some []
  | batch :: rest, total_left =>
    match buildChannelItems st batch with
    | none => none
    | some items =>
      match markLast (fun it => { it with eol := true }) items with
      | none => none
      | some items2 =>
        match sendChannelsGo st rest (total_left - items2.length) with
        | none => none
        | some packs => some (⟨total_left - items2.length, items2⟩ :: packs)

/-- The channel packs produced by `handlers.send_channels`
(`handlers.py:502-538`): the world's channels batched into packs of at
most `CHANNELPACK_MAXCOUNT`. -/
def send_channels_packs (st : ServerState) : Option (List TSC_ChannelPack_D) :=
  sendChannelsGo st (batched st.channels CHANNELPACK_MAXCOUNT) st.channels.length

/-- `handlers.send_channels` as the list of messages pushed to the
client; `none` models an uncaught exception (in particular the
`IndexError` of `items[-1]` on an empty batch). -/
def send_channels (st : ServerState) : Option (List ScMessage) :=
  (send_channels_packs st).map (List.map ScMessage.channel_pack)

/-- The items of one batch of the `device_connected` client event
handler, one per channel id of the connecting device, each reporting
the device's `online` flag. -/
def buildValueItems (st : ServerState) (device : Device) :
    List Nat → Option (List TSC_ChannelValue_B)
  | [] => some []
  | cid :: rest =>
    match st.get_channel cid, buildValueItems st device rest with
    | some channel, some items =>
      some (⟨false, channel.id, device.online, ⟨channel.value, zeros8, 0⟩⟩ :: items)
    | _, _ => none

/-- The per-batch loop of the `device_connected` client event
handler. -/
def deviceConnectedGo (st : ServerState) (device : Device) :
    List (List Nat) → Nat → Option (List TSC_ChannelValuePack_B)
  | [], _ => some []
  | batch :: rest, total_left =>
    match buildValueItems st device batch with
    | none => none
    | some items =>
      match markLast (fun it => { it with eol := true }) items with
      | none => none
      | some items2 =>
        match deviceConnectedGo st device rest (total_left - items2.length) with
        | none => none
        | some packs => some (⟨total_left - items2.length, items2⟩ :: packs)

/-- `handlers.device_connected` client event handler
(`handlers.py:756-780`, also registered for `DEVICE_DISCONNECTED`):
sends the device's channel values batched into packs of at most
`CHANNELVALUE_PACK_MAXCOUNT`, each item reporting the device's current
`online` flag. -/
def device_connected_event (st : ServerState) (device_id : Nat) :
    Option (List TSC_ChannelValuePack_B) :=
  match st.get_device device_id with
  | none => none
  | some device =>
    deviceConnectedGo st device
      (batched device.channel_ids CHANNELVALUE_PACK_MAXCOUNT)
      device.channel_ids.length

/-- `handlers.channel_value_changed` client event handler
(`handlers.py:783-803`): a single-item value pack for the changed
channel with `online := true` written unconditionally. -/
def channel_value_changed (st : ServerState) (channel_id : Nat) (value : Bytes) :
    Option TSC_ChannelValuePack_B :=
  match st.get_channel channel_id with
  | none => none
  | some channel =>
    some ⟨0, [⟨true, channel.id, true, ⟨value, zeros8, 0⟩⟩]⟩

/-- Dispatch of one client-scope queue entry to its send handler
(`events.py` dispatch restricted to the three post-registration
sends). -/
def handle_client_event (st : ServerState) (location_name : String) :
    ClientEventId → Option (List ScMessage)
  | ClientEventId.SEND_LOCATIONS =>
    some [ScMessage.location_pack (send_locations location_name)]
  | ClientEventId.SEND_CHANNELS => send_channels st
  | ClientEventId.SEND_SCENES => some [ScMessage.scene_pack send_scenes]

/-- Draining a client's event queue in FIFO order, collecting the
messages pushed to the client (spec section 4.4: events within one
queue are processed strictly in enqueue order). -/
def drain_client_events (st : ServerState) (location_name : String) :
    List ClientEventId → Option (List ScMessage)
  | [] => some []
  | e :: rest =>
    match handle_client_event st location_name e,
        drain_client_events st location_name rest with
    | some msgs, some more => some (msgs ++ more)
    | _, _ => none

/-- Formalisation of the claim's description of relay TOGGLE ("flips
the low bit of the current stored value"), for comparison with what the
handler computes: the low bit of the first byte is flipped and every
other bit kept. -/
def flipLowBit : Bytes → Bytes
  | [] => []
  | b :: rest => (if b % 2 = 0 then b + 1 else b - 1) :: rest

/-- GUID of the configured device 1 (`tests/conftest.py`). -/
def guid1 : Bytes := [1, 0, 0, 0, 0, 0, 0, 0, 0, 0, 0, 0, 0, 0, 0, 0]

/-- GUID of the configured device 2. -/
def guid2 : Bytes := [2, 0, 0, 0, 0, 0, 0, 0, 0, 0, 0, 0, 0, 0, 0, 0]

/-- Channel 1 of the test configuration: a relay on device 1. -/
def chRelay : Channel :=
  ⟨1, 1, "relay", "Relay", ChannelType.RELAY, FUNC_POWERSWITCH, FLAG_CHANNELSTATE,
    0, 0, zeros8, none⟩

/-- Channel 2: a thermometer on device 1. -/
def chThermometer : Channel :=
  ⟨2, 1, "thermometer", "Thermometer", ChannelType.THERMOMETER, FUNC_THERMOMETER,
    FLAG_CHANNELSTATE, 0, 0, zeros8, none⟩

/-- Channel 3: a second relay on device 1. -/
def chRelay2 : Channel :=
  ⟨3, 1, "relay2", "Relay2", ChannelType.RELAY, FUNC_POWERSWITCH, FLAG_CHANNELSTATE,
    0, 0, zeros8, none⟩

/-- Channel 4: a dimmer on device 2. -/
def chLights : Channel :=
  ⟨4, 2, "lights", "Lights", ChannelType.DIMMER, FUNC_DIMMER, FLAG_CHANNELSTATE,
    1, 0, zeros8, none⟩

/-- Device 1 of the test configuration, not yet online. -/
def dev1 : Device :=
  ⟨1, "device-1", guid1, 0, 0, [1, 2, 3], 23, false⟩

/-- Device 2 of the test configuration (dimmer device), not yet
online. -/
def dev2 : Device :=
  ⟨2, "device-2", guid2, 7, 1, [4], 23, false⟩

/-- Scene 1 of the test configuration: two steps naming the relay
channels. -/
def scene1 : Scene :=
  ⟨1, "scene-1", "Scene 1",
    [⟨"relay", ActionType.TURN_ON, []⟩, ⟨"relay2", ActionType.TURN_OFF, []⟩]⟩

/-- The world state built from the test configuration
(`tests/conftest.py`, devices 1 and 2), before any connection. -/
def fixtureState : ServerState :=
  ⟨[dev1, dev2], [chRelay, chThermometer, chRelay2, chLights], [scene1], []⟩

/-- The fixture state with device 1 already online (as after a first
successful device registration). -/
def fixtureStateOnline : ServerState :=
  ⟨[{ dev1 with online := true }, dev2],
    [chRelay, chThermometer, chRelay2, chLights], [scene1], []⟩

/-- A `DS_REGISTER_DEVICE_E` request for device 1 whose channels match
the configuration in number, declared number, type and func, but whose
first channel carries different flags
(`tests/server_test.py:test_register_device_invalid_channel_flags`
uses `RS_AUTO_CALIBRATION | ZWAVE_BRIDGE` instead of
`CHANNELSTATE`). -/
def msgFlagsMismatch : TDS_RegisterDevice_E :=
  ⟨guid1, "Device #1", "1.2.3", 0, 0,
    [⟨0, ChannelType.RELAY, FUNC_POWERSWITCH, 1048592, zeros8⟩,
      ⟨1, ChannelType.THERMOMETER, FUNC_THERMOMETER, FLAG_CHANNELSTATE, zeros8⟩,
      ⟨2, ChannelType.RELAY, FUNC_POWERSWITCH, FLAG_CHANNELSTATE, zeros8⟩]⟩

/-- A well-formed `DS_REGISTER_DEVICE_E` request for device 1, matching
the configuration exactly. -/
def msgRegisterDev1 : TDS_RegisterDevice_E :=
  ⟨guid1, "Device #1", "1.2.3", 0, 0,
    [⟨0, ChannelType.RELAY, FUNC_POWERSWITCH, FLAG_CHANNELSTATE, zeros8⟩,
      ⟨1, ChannelType.THERMOMETER, FUNC_THERMOMETER, FLAG_CHANNELSTATE, zeros8⟩,
      ⟨2, ChannelType.RELAY, FUNC_POWERSWITCH, FLAG_CHANNELSTATE, zeros8⟩]⟩

/-- A `CS_REGISTER_CLIENT_D` request for a fresh client GUID. -/
def msgRegisterClient : TCS_RegisterClient_D :=
  ⟨"email@example.com", "password123",
    [9, 9, 9, 9, 0, 0, 0, 0, 0, 0, 0, 0, 0, 0, 0, 0],
    "Test Client", "1.2.3", "localhost"⟩

/-- The fixture state after a client set channel 3 (a relay) to the
non-canonical value `00 01 00x6` via `CS_SET_VALUE`. -/
def relayMixedState : ServerState :=
  (client_set_value fixtureState ⟨3, Target.CHANNEL, [0, 1, 0, 0, 0, 0, 0, 0]⟩).1

/-- A world with one online device that has no channels, and no
channels at all: the boundary case for the batched send handlers. -/
def emptyChannelsState : ServerState :=
  ⟨[⟨1, "device-empty", [3, 0, 0, 0, 0, 0, 0, 0, 0, 0, 0, 0, 0, 0, 0, 0],
      0, 0, [], 23, true⟩], [], [], []⟩

/-- The outcome of registering device 1 against the fixture state with
a well-formed request. -/
def regDev1Outcome : DeviceRegOutcome :=
  (register_device fixtureState 23 30 msgRegisterDev1).getD
    ⟨registerFalse, fixtureState, [], true⟩

/-- The outcome of registering device 1 a second time, while the first
registration is still connected. -/
def regDev1TwiceOutcome : DeviceRegOutcome :=
  (register_device fixtureStateOnline 23 30 msgRegisterDev1).getD
    ⟨registerFalse, fixtureStateOnline, [], true⟩

/-- The outcome of registering a fresh client against the fixture
state. -/
def clientRegOutcome : ClientRegOutcome :=
  register_client fixtureState 30 1000 msgRegisterClient

/-- The channel packs the fixture server sends to the freshly
registered client. -/
def fixturePacks : List TSC_ChannelPack_D :=
  (send_channels_packs clientRegOutcome.state).getD []

section Lemmas

/-- `setValue` keeps the channel id. -/
theorem Channel.setValue_id (c : Channel) (v : Bytes) : (c.setValue v).id = c.id := rfl

/-- `setValue` keeps the channel type. -/
theorem Channel.setValue_type (c : Channel) (v : Bytes) :
    (c.setValue v).type = c.type := rfl

/-- `setValue` stores the new value. -/
theorem Channel.setValue_value (c : Channel) (v : Bytes) :
    (c.setValue v).value = v := rfl

/-- Looking up the channel just written by `set_channel_value` returns
its updated copy. -/
theorem get_channel_set_channel_value (st : ServerState) (cid : Nat) (v : Bytes) :
    (st.set_channel_value cid v).get_channel cid =
      (st.get_channel cid).map (fun c => c.setValue v) := by
  show (st.channels.map _).find? _ = (st.channels.find? _).map _
  induction st.channels with
  | nil => rfl
  | cons c l ih =>
    by_cases h : c.id = cid
    · simp [List.find?_cons, h, Channel.setValue]
    · simp only [List.map_cons, List.find?_cons, if_neg h]
      have hc : (c.id == cid) = false := by simp [h]
      simp [hc, ih]

/-- A successful list index determines how `drop` unfolds. -/
theorem drop_eq_cons_of_getElem? {α : Type} (l : List α) (n : Nat) (a : α)
    (h : l[n]? = some a) : l.drop n = a :: l.drop (n + 1) := by
  induction l generalizing n with
  | nil => simp at h
  | cons x xs ih =>
    cases n with
    | zero => simp_all
    | succ m =>
      simp only [List.getElem?_cons_succ] at h
      simpa using ih m h

/-- `client_execute_action` either takes one of its failure paths -
producing exactly the FALSE echo with no side effect - or replies
TRUE. -/
theorem client_execute_action_cases (st : ServerState) (msg : TCS_Action) :
    client_execute_action st msg = ⟨failResult msg, st, [], false⟩ ∨
      (client_execute_action st msg).result.result_code = ResultCode.TRUE := by
  unfold client_execute_action
  split
  · exact Or.inl rfl
  · split
    · exact Or.inl rfl
    · split
      · split
        · exact Or.inr rfl
        · split
          · exact Or.inr rfl
          · split
            · exact Or.inr rfl
            · exact Or.inl rfl
      · split
        · split
          · exact Or.inr rfl
          · split
            · exact Or.inr rfl
            · exact Or.inl rfl
        · exact Or.inl rfl

/-- Executing TURN_OFF on a DIMMER channel stores brightness 0. -/
theorem execute_dimmer_off (st : ServerState) (cid : Nat) (c : Channel)
    (hc : st.get_channel cid = some c) (ht : c.type = ChannelType.DIMMER) :
    client_execute_action st ⟨ActionType.TURN_OFF, cid, ActionSubjectType.CHANNEL, []⟩ =
      successOutcome st ⟨ActionType.TURN_OFF, cid, ActionSubjectType.CHANNEL, []⟩
        (encodeDimmerValue 0) := by
  have h1 : ¬c.type = ChannelType.RELAY := by rw [ht]; decide
  simp only [client_execute_action, hc]
  simp [h1, ht]

/-- Executing TURN_ON on a DIMMER channel stores the retained
`last_value` when present and non-empty, brightness 100 otherwise. -/
theorem execute_dimmer_on (st : ServerState) (cid : Nat) (c : Channel)
    (hc : st.get_channel cid = some c) (ht : c.type = ChannelType.DIMMER) :
    client_execute_action st ⟨ActionType.TURN_ON, cid, ActionSubjectType.CHANNEL, []⟩ =
      successOutcome st ⟨ActionType.TURN_ON, cid, ActionSubjectType.CHANNEL, []⟩
        (match c.last_value with
         | some v => if v.isEmpty then encodeDimmerValue 100 else v
         | none => encodeDimmerValue 100) := by
  have h1 : ¬c.type = ChannelType.RELAY := by rw [ht]; decide
  simp only [client_execute_action, hc]
  simp [h1, ht]

/-- `client_set_value` on an existing channel is `set_channel_value`. -/
theorem client_set_value_state (st : ServerState) (cid : Nat) (c : Channel) (v : Bytes)
    (hc : st.get_channel cid = some c) :
    (client_set_value st ⟨cid, Target.CHANNEL, v⟩).1 = st.set_channel_value cid v := by
  simp only [client_set_value, hc]
  rfl

end Lemmas

/-- C2 (counterexample): the claim says `client_execute_action` accepts
SCENE subjects and executes scene steps; on the fixture state, which
holds scene 1 with two steps, an `EXECUTE` request with subject type
SCENE is rejected with `ResultCode.FALSE`, no state change and no
events. -/
theorem execute_action_scene_rejected :
    client_execute_action fixtureState
        ⟨ActionType.EXECUTE, 1, ActionSubjectType.SCENE, []⟩ =
      ⟨⟨ResultCode.FALSE, ActionType.EXECUTE, 1, ActionSubjectType.SCENE⟩,
        fixtureState, [], false⟩ ∧
    fixtureState.scenes = [scene1] ∧ scene1.steps.length = 2 := by
  decide

/-- C2 (amended): `client_execute_action` accepts only CHANNEL
subjects; every request with any other subject type - SCENE included -
is rejected with `ResultCode.FALSE` echoing the request, leaving the
state unchanged, emitting no event and keeping the connection open. -/
theorem execute_action_non_channel_rejected (st : ServerState) (msg : TCS_Action)
    (h : msg.subject_type ≠ ActionSubjectType.CHANNEL) :
    client_execute_action st msg = ⟨failResult msg, st, [], false⟩ := by
  unfold client_execute_action
  rw [if_pos h]

/-- Witness for C2's amended theorem at the concrete input of
`test_client_execute_action_invalid_subject` (subject type
SCHEDULE). -/
theorem execute_action_non_channel_rejected_witness :
    client_execute_action fixtureState
        ⟨ActionType.TURN_ON, 3, ActionSubjectType.SCHEDULE, []⟩ =
      ⟨failResult ⟨ActionType.TURN_ON, 3, ActionSubjectType.SCHEDULE, []⟩,
        fixtureState, [], false⟩ :=
  execute_action_non_channel_rejected fixtureState
    ⟨ActionType.TURN_ON, 3, ActionSubjectType.SCHEDULE, []⟩ (by decide)

/-- C5: whenever `client_execute_action` replies FALSE (unsupported
subject type, unknown channel id, unsupported channel type or
unsupported action), the reply echoes the request's action id, subject
id and subject type, the state is unchanged, no event is emitted and
the connection is not marked errored. -/
theorem execute_action_failure_no_side_effects (st : ServerState) (msg : TCS_Action)
    (h : (client_execute_action st msg).result.result_code = ResultCode.FALSE) :
    client_execute_action st msg = ⟨failResult msg, st, [], false⟩ := by
  rcases client_execute_action_cases st msg with hcase | hcase
  · exact hcase
  · rw [h] at hcase
    exact absurd hcase (by decide)

/-- Witness for C5 at the concrete input of
`test_client_execute_action_invalid_channel` (channel id 42 does not
exist). -/
theorem execute_action_failure_no_side_effects_witness :
    (client_execute_action fixtureState
        ⟨ActionType.TURN_ON, 42, ActionSubjectType.CHANNEL, []⟩).result.result_code =
      ResultCode.FALSE ∧
    client_execute_action fixtureState
        ⟨ActionType.TURN_ON, 42, ActionSubjectType.CHANNEL, []⟩ =
      ⟨failResult ⟨ActionType.TURN_ON, 42, ActionSubjectType.CHANNEL, []⟩,
        fixtureState, [], false⟩ :=
  ⟨by decide,
    execute_action_failure_no_side_effects fixtureState
      ⟨ActionType.TURN_ON, 42, ActionSubjectType.CHANNEL, []⟩ (by decide)⟩

/-- C4 (counterexample): with channel 3's stored value set to
`00 01 00x6` via `CS_SET_VALUE`, a relay TOGGLE stores `01 00x7` - the
fresh encoding of the negated on-state - and not the low-bit flip
`01 01 00x6` of the current stored value that the claim describes. -/
theorem relay_toggle_not_low_bit_flip :
    ((client_execute_action relayMixedState
          ⟨ActionType.TOGGLE, 3, ActionSubjectType.CHANNEL, []⟩).state.get_channel 3).map
        (fun ch => ch.value) = some [1, 0, 0, 0, 0, 0, 0, 0] ∧
    (relayMixedState.get_channel 3).map (fun ch => ch.value) =
      some [0, 1, 0, 0, 0, 0, 0, 0] ∧
    flipLowBit [0, 1, 0, 0, 0, 0, 0, 0] = [1, 1, 0, 0, 0, 0, 0, 0] ∧
    ([1, 0, 0, 0, 0, 0, 0, 0] : Bytes) ≠ flipLowBit [0, 1, 0, 0, 0, 0, 0, 0] := by
  decide

/-- C4 (amended): on a RELAY channel, TURN_ON stores `01 00x7`,
TURN_OFF stores `00x8`, and TOGGLE stores the canonical encoding of the
negated decoded on-state - `01 00x7` when the current value's first
byte is zero and `00x8` otherwise, so that toggling from `00x8` yields
`01 00x7` - each together with a `CHANNEL_SET_VALUE` event; any other
action is rejected with FALSE and no side effect. -/
theorem relay_actions (st : ServerState) (msg : TCS_Action) (c : Channel)
    (hsub : msg.subject_type = ActionSubjectType.CHANNEL)
    (hc : st.get_channel msg.subject_id = some c)
    (ht : c.type = ChannelType.RELAY) :
    (msg.action_id = ActionType.TURN_ON →
      client_execute_action st msg = successOutcome st msg (encodeRelayValue true)) ∧
    (msg.action_id = ActionType.TURN_OFF →
      client_execute_action st msg = successOutcome st msg (encodeRelayValue false)) ∧
    (msg.action_id = ActionType.TOGGLE →
      client_execute_action st msg =
        successOutcome st msg (encodeRelayValue (!decodeRelayOn c.value))) ∧
    (msg.action_id ≠ ActionType.TURN_ON → msg.action_id ≠ ActionType.TURN_OFF →
      msg.action_id ≠ ActionType.TOGGLE →
      client_execute_action st msg = ⟨failResult msg, st, [], false⟩) := by
  have hne : ¬msg.subject_type ≠ ActionSubjectType.CHANNEL := by simp [hsub]
  unfold client_execute_action
  simp only [if_neg hne, hc]
  rw [if_pos ht]
  refine ⟨fun h1 => by rw [if_pos h1], fun h2 => ?_, fun h3 => ?_, fun h1 h2 h3 => ?_⟩
  · rw [if_neg (by simp [h2]), if_pos h2]
  · rw [if_neg (by simp [h3]), if_neg (by simp [h3]), if_pos h3]
  · rw [if_neg h1, if_neg h2, if_neg h3]

/-- Witness for C4's amended theorem: the concrete TOGGLE of
`test_client_execute_action_toggle` (channel 3 with stored value
`00x8`) stores `01 00x7`. -/
theorem relay_actions_witness :
    client_execute_action fixtureState
        ⟨ActionType.TOGGLE, 3, ActionSubjectType.CHANNEL, []⟩ =
      successOutcome fixtureState ⟨ActionType.TOGGLE, 3, ActionSubjectType.CHANNEL, []⟩
        (encodeRelayValue true) := by
  have h :=
    (relay_actions fixtureState ⟨ActionType.TOGGLE, 3, ActionSubjectType.CHANNEL, []⟩
      chRelay2 rfl rfl rfl).2.2.1 rfl
  simpa [decodeRelayOn, chRelay2, zeros8] using h

/-- C3: on a DIMMER channel, after a client sets brightness
`b ∈ (0,100]` via `CS_SET_VALUE`, executing TURN_OFF and then TURN_ON
restores the stored value to brightness `b`; TURN_ON on a dimmer whose
`last_value` was never set stores brightness 100; TURN_OFF stores
brightness 0. -/
theorem dimmer_off_on_restores_brightness (st : ServerState) (cid b : Nat) (c : Channel)
    (hc : st.get_channel cid = some c) (ht : c.type = ChannelType.DIMMER)
    (hb0 : 0 < b) (_hb1 : b ≤ 100) :
    (((client_execute_action
          (client_execute_action
              (client_set_value st ⟨cid, Target.CHANNEL, encodeDimmerValue b⟩).1
              ⟨ActionType.TURN_OFF, cid, ActionSubjectType.CHANNEL, []⟩).state
          ⟨ActionType.TURN_ON, cid, ActionSubjectType.CHANNEL, []⟩).state.get_channel
        cid).map (fun ch => ch.value) = some (encodeDimmerValue b)) ∧
    (c.last_value = none →
      client_execute_action st ⟨ActionType.TURN_ON, cid, ActionSubjectType.CHANNEL, []⟩ =
        successOutcome st ⟨ActionType.TURN_ON, cid, ActionSubjectType.CHANNEL, []⟩
          (encodeDimmerValue 100)) ∧
    (client_execute_action st ⟨ActionType.TURN_OFF, cid, ActionSubjectType.CHANNEL, []⟩ =
      successOutcome st ⟨ActionType.TURN_OFF, cid, ActionSubjectType.CHANNEL, []⟩
        (encodeDimmerValue 0)) := by
  have hbne : b ≠ 0 := Nat.pos_iff_ne_zero.mp hb0
  -- state after the CS_SET_VALUE
  have hset := client_set_value_state st cid c (encodeDimmerValue b) hc
  have hc1 :
      ((client_set_value st ⟨cid, Target.CHANNEL, encodeDimmerValue b⟩).1).get_channel cid =
        some (c.setValue (encodeDimmerValue b)) := by
    rw [hset, get_channel_set_channel_value, hc]; rfl
  have ht1 : (c.setValue (encodeDimmerValue b)).type = ChannelType.DIMMER := ht
  -- the TURN_OFF
  have hoff := execute_dimmer_off _ cid _ hc1 ht1
  have hc2 :
      ((client_execute_action
          (client_set_value st ⟨cid, Target.CHANNEL, encodeDimmerValue b⟩).1
          ⟨ActionType.TURN_OFF, cid, ActionSubjectType.CHANNEL, []⟩).state).get_channel cid =
        some ((c.setValue (encodeDimmerValue b)).setValue (encodeDimmerValue 0)) := by
    rw [hoff]
    show ((client_set_value st ⟨cid, Target.CHANNEL, encodeDimmerValue b⟩).1.set_channel_value
        cid (encodeDimmerValue 0)).get_channel cid = _
    rw [get_channel_set_channel_value, hc1]; rfl
  have ht2 :
      ((c.setValue (encodeDimmerValue b)).setValue (encodeDimmerValue 0)).type =
        ChannelType.DIMMER := ht
  -- the retained last_value survives the TURN_OFF
  have hlast2 :
      ((c.setValue (encodeDimmerValue b)).setValue (encodeDimmerValue 0)).last_value =
        some (encodeDimmerValue b) := by
    simp [Channel.setValue, encodeDimmerValue, ht, hbne]
  -- the TURN_ON
  have hon := execute_dimmer_on _ cid _ hc2 ht2
  refine ⟨?_, ?_, ?_⟩
  · rw [hon, hlast2]
    simp only [successOutcome]
    rw [get_channel_set_channel_value, hc2]
    simp [encodeDimmerValue, Channel.setValue]
  · intro hnone
    have := execute_dimmer_on st cid c hc ht
    rw [hnone] at this
    exact this
  · exact execute_dimmer_off st cid c hc ht

/-- Witness for C3 at the concrete dimmer scenario of
`test_dimmer_off_on_preserves_brightness`: channel 4, brightness 50. -/
theorem dimmer_off_on_restores_brightness_witness :
    (((client_execute_action
          (client_execute_action
              (client_set_value fixtureState ⟨4, Target.CHANNEL, encodeDimmerValue 50⟩).1
              ⟨ActionType.TURN_OFF, 4, ActionSubjectType.CHANNEL, []⟩).state
          ⟨ActionType.TURN_ON, 4, ActionSubjectType.CHANNEL, []⟩).state.get_channel 4).map
        (fun ch => ch.value) = some (encodeDimmerValue 50)) ∧
    (chLights.last_value = none →
      client_execute_action fixtureState
          ⟨ActionType.TURN_ON, 4, ActionSubjectType.CHANNEL, []⟩ =
        successOutcome fixtureState ⟨ActionType.TURN_ON, 4, ActionSubjectType.CHANNEL, []⟩
          (encodeDimmerValue 100)) ∧
    (client_execute_action fixtureState
        ⟨ActionType.TURN_OFF, 4, ActionSubjectType.CHANNEL, []⟩ =
      successOutcome fixtureState ⟨ActionType.TURN_OFF, 4, ActionSubjectType.CHANNEL, []⟩
        (encodeDimmerValue 0)) :=
  dimmer_off_on_restores_brightness fixtureState 4 50 chLights (by decide) (by decide)
    (by decide) (by decide)

/-- The events produced by the registration-value loop: one
`CHANNEL_REGISTER_VALUE` per request channel, pairing the device's
channel ids (from position `number`) with the device-supplied
values, in order. -/
theorem register_channels_events (ids : List Nat) :
    ∀ (cfgs : List ChannelRegMsg) (st : ServerState) (number : Nat)
      (st2 : ServerState) (evs : List ServerEvent),
      register_channels ids st cfgs number = some (st2, evs) →
      evs = List.zipWith
        (fun cid cfg => ServerEvent.channel_register_value cid cfg.value)
        (ids.drop number) cfgs
  | [], st, number, st2, evs => by
    intro h
    simp only [register_channels] at h
    cases h
    simp
  | cfg :: rest, st, number, st2, evs => by
    intro h
    cases hidx : ids[number]? with
    | none =>
      simp only [register_channels, hidx] at h
      cases h
    | some cid =>
      cases hrec : register_channels ids (st.set_channel_value cid cfg.value) rest
          (number + 1) with
      | none =>
        simp only [register_channels, hidx, hrec] at h
        cases h
      | some res =>
        cases res with
        | mk st3 evs3 =>
          simp only [register_channels, hidx, hrec] at h
          cases h
          have ih := register_channels_events ids rest
            (st.set_channel_value cid cfg.value) (number + 1) _ _ hrec
          rw [drop_eq_cons_of_getElem? ids number cid hidx]
          simp [ih]

/-- A device that is already online cannot pass `device_connected`:
the state is left untouched. -/
theorem device_connected_already_online (st : ServerState) (did pv : Nat) (d : Device)
    (h2 : st.get_device did = some d) (h3 : d.online = true) :
    st.device_connected did pv = (false, st) := by
  simp only [ServerState.device_connected, h2, h3]
  rfl

/-- C7: a successful `DS_REGISTER_DEVICE_E` emits exactly one
`CHANNEL_REGISTER_VALUE` event per channel, in channel order, each
carrying the device-supplied initial value, followed by a single
`DEVICE_CONNECTED` event for the device. -/
theorem register_device_success_events (st : ServerState) (pv a : Nat)
    (msg : TDS_RegisterDevice_E) (out : DeviceRegOutcome)
    (h : register_device st pv a msg = some out)
    (hT : out.result.result_code = ResultCode.TRUE) :
    ∃ device_id device,
      st.get_device_id msg.guid = some device_id ∧
      st.get_device device_id = some device ∧
      device.channel_ids.length = msg.channels.length ∧
      out.events =
        List.zipWith (fun cid cfg => ServerEvent.channel_register_value cid cfg.value)
          device.channel_ids msg.channels ++
        [ServerEvent.device_connected device_id] := by
  cases hguid : st.get_device_id msg.guid with
  | none =>
    simp only [register_device, hguid] at h
    cases h
    simp [registerFalse] at hT
  | some device_id =>
    cases hdev : st.get_device device_id with
    | none =>
      simp only [register_device, hguid, hdev] at h
      cases h
    | some device =>
      cases hchk : channels_check st device.channel_ids msg.channels 0 with
      | none =>
        simp only [register_device, hguid, hdev, hchk] at h
        split at h
        · cases h; simp [registerFalse] at hT
        · split at h
          · cases h; simp [registerFalse] at hT
          · cases h
      | some loopError =>
        cases hconn : st.device_connected device_id pv with
        | mk ok st1 =>
          cases ok with
          | false =>
            simp only [register_device, hguid, hdev, hchk, hconn] at h
            split at h
            · cases h; simp [registerFalse] at hT
            · split at h
              · cases h; simp [registerFalse] at hT
              · split at h
                · cases h; simp [registerFalse] at hT
                · cases h; simp [registerFalse] at hT
          | true =>
            cases hreg : register_channels device.channel_ids st1 msg.channels 0 with
            | none =>
              simp only [register_device, hguid, hdev, hchk, hconn, hreg] at h
              split at h
              · cases h; simp [registerFalse] at hT
              · split at h
                · cases h; simp [registerFalse] at hT
                · split at h
                  · cases h; simp [registerFalse] at hT
                  · cases h
            | some res =>
              cases res with
              | mk st2 evs =>
                simp only [register_device, hguid, hdev, hchk, hconn, hreg] at h
                split at h
                · cases h; simp [registerFalse] at hT
                · split at h
                  · cases h; simp [registerFalse] at hT
                  · split at h
                    · cases h; simp [registerFalse] at hT
                    · next hcount =>
                      push_neg at hcount
                      cases h
                      have hevs := register_channels_events device.channel_ids
                        msg.channels st1 0 st2 evs hreg
                      simp only [List.drop_zero] at hevs
                      exact ⟨device_id, device, rfl, hdev, hcount.1.symm, by rw [hevs]⟩

/-- Witness for C7: the well-formed registration of device 1 against
the fixture state. -/
theorem register_device_success_events_witness :
    register_device fixtureState 23 30 msgRegisterDev1 = some regDev1Outcome ∧
    ∃ device_id device,
      fixtureState.get_device_id msgRegisterDev1.guid = some device_id ∧
      fixtureState.get_device device_id = some device ∧
      device.channel_ids.length = msgRegisterDev1.channels.length ∧
      regDev1Outcome.events =
        List.zipWith (fun cid cfg => ServerEvent.channel_register_value cid cfg.value)
          device.channel_ids msgRegisterDev1.channels ++
        [ServerEvent.device_connected device_id] :=
  ⟨by decide,
    register_device_success_events fixtureState 23 30 msgRegisterDev1 regDev1Outcome
      (by decide) (by decide)⟩

/-- C8: a second device registration with the GUID of a device that is
already online is rejected with `ResultCode.FALSE`, the connection is
marked errored, and the world state - in particular the first
connection's online flag - is left completely unchanged, with no
events emitted. -/
theorem register_device_already_connected (st : ServerState) (pv a : Nat)
    (msg : TDS_RegisterDevice_E) (device_id : Nat) (device : Device)
    (out : DeviceRegOutcome)
    (h1 : st.get_device_id msg.guid = some device_id)
    (h2 : st.get_device device_id = some device)
    (h3 : device.online = true)
    (h : register_device st pv a msg = some out) :
    out.result.result_code = ResultCode.FALSE ∧ out.error = true ∧
      out.state = st ∧ out.events = [] := by
  cases hchk : channels_check st device.channel_ids msg.channels 0 with
  | none =>
    simp only [register_device, h1, h2, hchk] at h
    split at h
    · cases h; exact ⟨rfl, rfl, rfl, rfl⟩
    · split at h
      · cases h; exact ⟨rfl, rfl, rfl, rfl⟩
      · cases h
  | some loopError =>
    simp only [register_device, h1, h2, hchk,
      device_connected_already_online st device_id pv device h2 h3] at h
    split at h
    · cases h; exact ⟨rfl, rfl, rfl, rfl⟩
    · split at h
      · cases h; exact ⟨rfl, rfl, rfl, rfl⟩
      · split at h
        · cases h; exact ⟨rfl, rfl, rfl, rfl⟩
        · cases h; exact ⟨rfl, rfl, rfl, rfl⟩

/-- Witness for C8: registering device 1 against the fixture state in
which device 1 is already online. -/
theorem register_device_already_connected_witness :
    regDev1TwiceOutcome.result.result_code = ResultCode.FALSE ∧
    regDev1TwiceOutcome.error = true ∧
    regDev1TwiceOutcome.state = fixtureStateOnline ∧
    regDev1TwiceOutcome.events = [] :=
  register_device_already_connected fixtureStateOnline 23 30 msgRegisterDev1 1
    { dev1 with online := true } regDev1TwiceOutcome (by decide) (by decide) (by decide)
    (by decide)

/-- C1 (code evaluated at the failing input): a registration request
for device 1 whose channels match the configuration in count, number,
type and func but whose first channel's flags differ from the
configured `CHANNELSTATE` is nonetheless accepted with
`ResultCode.TRUE` and no connection error - `register_device` never
compares the flags, although
`test_register_device_invalid_channel_flags` requires the request to
be rejected. -/
theorem register_device_flags_mismatch_accepted :
    (register_device fixtureState 23 30 msgFlagsMismatch).map
        (fun o => (o.result.result_code, o.error)) =
      some (ResultCode.TRUE, false) ∧
    msgFlagsMismatch.channels.map (fun ch => ch.flags) ≠
      [chRelay.flags, chThermometer.flags, chRelay2.flags] ∧
    msgFlagsMismatch.channels.map (fun ch => (ch.type, ch.default_func)) =
      [(chRelay.type, chRelay.func), (chThermometer.type, chThermometer.func),
        (chRelay2.type, chRelay2.func)] := by
  decide

/-- With positive batch size and enough fuel, every chunk produced by
`batchedGo` has at most `n` elements. -/
theorem batchedGo_chunk_le {α : Type} (n : Nat) (hn : 0 < n) :
    ∀ (fuel : Nat) (xs : List α), xs.length ≤ fuel →
      ∀ b ∈ batchedGo n fuel xs, b.length ≤ n
  | 0, xs => by
    intro hlen b hb
    have hx : xs = [] := List.eq_nil_of_length_eq_zero (Nat.le_zero.mp hlen)
    subst hx
    simp only [batchedGo, List.mem_singleton] at hb
    subst hb
    simp
  | fuel + 1, xs => by
    intro hlen b hb
    simp only [batchedGo] at hb
    split at hb
    · next hle =>
      simp only [List.mem_singleton] at hb
      subst hb
      exact hle
    · next hgt =>
      rcases List.mem_cons.mp hb with hb | hb
      · subst hb
        simp
      · apply batchedGo_chunk_le n hn fuel (xs.drop n) ?_ b hb
        push_neg at hgt
        simp only [List.length_drop]
        omega

/-- Every batch produced by `batched` with positive batch size has at
most `n` elements. -/
theorem batched_chunk_le {α : Type} (n : Nat) (hn : 0 < n) (xs : List α) :
    ∀ b ∈ batched xs n, b.length ≤ n :=
  batchedGo_chunk_le n hn xs.length xs le_rfl

/-- `buildChannelItems` produces one item per channel. -/
theorem buildChannelItems_length (st : ServerState) :
    ∀ (l : List Channel) (items : List TSC_Channel_D),
      buildChannelItems st l = some items → items.length = l.length
  | [], items => by
    intro h
    simp only [buildChannelItems] at h
    cases h
    rfl
  | c :: rest, items => by
    intro h
    cases hit : buildChannelItem st c with
    | none => simp only [buildChannelItems, hit] at h; cases h
    | some it =>
      cases hits : buildChannelItems st rest with
      | none => simp only [buildChannelItems, hit, hits] at h; cases h
      | some its =>
        simp only [buildChannelItems, hit, hits] at h
        cases h
        simp [buildChannelItems_length st rest its hits]

/-- `markLast` preserves the list length. -/
theorem markLast_length {α : Type} (f : α → α) :
    ∀ (l l2 : List α), markLast f l = some l2 → l2.length = l.length
  | [], l2 => by intro h; cases h
  | [x], l2 => by
    intro h
    simp only [markLast] at h
    cases h
    rfl
  | x :: y :: rest, l2 => by
    intro h
    cases hm : markLast f (y :: rest) with
    | none => simp only [markLast, hm] at h; cases h
    | some zs =>
      simp only [markLast, hm] at h
      cases h
      simp [markLast_length f (y :: rest) zs hm]

/-- `markLast` preserves any property closed under `f`. -/
theorem markLast_preserves {α : Type} (f : α → α) (p : α → Prop)
    (hf : ∀ x, p x → p (f x)) :
    ∀ (l l2 : List α), markLast f l = some l2 → (∀ x ∈ l, p x) → ∀ y ∈ l2, p y
  | [], l2 => by intro h; cases h
  | [x], l2 => by
    intro h hall y hy
    simp only [markLast] at h
    cases h
    simp only [List.mem_singleton] at hy
    subst hy
    exact hf x (hall x (List.mem_singleton_self x))
  | x :: y :: rest, l2 => by
    intro h hall z hz
    cases hm : markLast f (y :: rest) with
    | none => simp only [markLast, hm] at h; cases h
    | some zs =>
      simp only [markLast, hm] at h
      cases h
      rcases List.mem_cons.mp hz with hz | hz
      · subst hz
        exact hall z (List.mem_cons_self _ _)
      · exact markLast_preserves f p hf (y :: rest) zs hm
          (fun w hw => hall w (List.mem_cons_of_mem _ hw)) z hz

/-- Every pack built by the `send_channels` loop from batches of at
most `k` channels holds at most `k` items. -/
theorem sendChannelsGo_items_le (st : ServerState) (k : Nat) :
    ∀ (batches : List (List Channel)) (tl : Nat) (packs : List TSC_ChannelPack_D),
      (∀ b ∈ batches, b.length ≤ k) → sendChannelsGo st batches tl = some packs →
      ∀ p ∈ packs, p.items.length ≤ k
  | [], tl, packs => by
    intro _ h
    simp only [sendChannelsGo] at h
    cases h
    simp
  | batch :: rest, tl, packs => by
    intro hb h
    cases hitems : buildChannelItems st batch with
    | none => simp only [sendChannelsGo, hitems] at h; cases h
    | some items =>
      cases hmark : markLast (fun it => { it with eol := true }) items with
      | none => simp only [sendChannelsGo, hitems, hmark] at h; cases h
      | some items2 =>
        cases hrec : sendChannelsGo st rest (tl - items2.length) with
        | none => simp only [sendChannelsGo, hitems, hmark, hrec] at h; cases h
        | some packs2 =>
          simp only [sendChannelsGo, hitems, hmark, hrec] at h
          cases h
          intro p hp
          rcases List.mem_cons.mp hp with hp | hp
          · subst hp
            have h1 := markLast_length _ items items2 hmark
            have h2 := buildChannelItems_length st batch items hitems
            show items2.length ≤ k
            rw [h1, h2]
            exact hb batch (List.mem_cons_self _ _)
          · exact sendChannelsGo_items_le st k rest (tl - items2.length) packs2
              (fun b hb2 => hb b (List.mem_cons_of_mem _ hb2)) hrec p hp

/-- Every channel pack produced by `send_channels` holds at most
`CHANNELPACK_MAXCOUNT` items. -/
theorem send_channels_packs_le (st : ServerState) (packs : List TSC_ChannelPack_D)
    (h : send_channels_packs st = some packs) :
    ∀ p ∈ packs, p.items.length ≤ CHANNELPACK_MAXCOUNT :=
  sendChannelsGo_items_le st CHANNELPACK_MAXCOUNT
    (batched st.channels CHANNELPACK_MAXCOUNT) st.channels.length packs
    (batched_chunk_le CHANNELPACK_MAXCOUNT (by decide) st.channels) h

/-- C6 (counterexample): against the fixture state, a successful client
registration by itself schedules the location, channel and scene sends,
and draining the client queue delivers all three - while `CS_GET_NEXT`
is a no-op that sends nothing; so the sends are not driven by
`CS_GET_NEXT` requests. -/
theorem sends_happen_without_get_next :
    clientRegOutcome.result.result_code = ResultCode.TRUE ∧
    clientRegOutcome.clientEvents =
      [ClientEventId.SEND_LOCATIONS, ClientEventId.SEND_CHANNELS,
        ClientEventId.SEND_SCENES] ∧
    (drain_client_events clientRegOutcome.state "Test"
        clientRegOutcome.clientEvents).map List.length = some 3 ∧
    client_get_next clientRegOutcome.state = (clientRegOutcome.state, []) := by
  decide

/-- C6 (amended): after a successful client registration the server
proactively enqueues `SEND_LOCATIONS`, `SEND_CHANNELS`, `SEND_SCENES`
on the client's own queue; draining that queue yields, in order, one
location pack, the channel packs - each of at most
`CHANNELPACK_MAXCOUNT` channels - and one scene pack; `CS_GET_NEXT`
requests are ignored (the handler does nothing). -/
theorem register_client_schedules_sends (st : ServerState) (a now : Nat)
    (msg : TCS_RegisterClient_D)
    (hT : (register_client st a now msg).result.result_code = ResultCode.TRUE) :
    (register_client st a now msg).clientEvents =
      [ClientEventId.SEND_LOCATIONS, ClientEventId.SEND_CHANNELS,
        ClientEventId.SEND_SCENES] ∧
    (∀ (loc : String) (packs : List TSC_ChannelPack_D),
      send_channels_packs (register_client st a now msg).state = some packs →
      drain_client_events (register_client st a now msg).state loc
          (register_client st a now msg).clientEvents =
        some (ScMessage.location_pack (send_locations loc) ::
          (packs.map ScMessage.channel_pack ++ [ScMessage.scene_pack send_scenes])) ∧
      ∀ p ∈ packs, p.items.length ≤ CHANNELPACK_MAXCOUNT) ∧
    (client_get_next st).2 = [] := by
  cases hadd : st.add_client msg.guid with
  | mk client_id st1 =>
    cases hconn : st1.client_connected client_id with
    | mk ok st2 =>
      cases ok with
      | false =>
        simp only [register_client, hadd, hconn] at hT
        exact absurd hT (by decide)
      | true =>
        have hevents : (register_client st a now msg).clientEvents =
            [ClientEventId.SEND_LOCATIONS, ClientEventId.SEND_CHANNELS,
              ClientEventId.SEND_SCENES] := by
          simp only [register_client, hadd, hconn]
        refine ⟨hevents, fun loc packs hpacks =>
          ⟨?_, send_channels_packs_le _ packs hpacks⟩, rfl⟩
        rw [hevents]
        simp only [drain_client_events, handle_client_event, send_channels, hpacks,
          Option.map_some]
        simp

/-- Witness for C6's amended theorem at the fixture registration (four
channels, hence a single channel pack). -/
theorem register_client_schedules_sends_witness :
    clientRegOutcome.clientEvents =
      [ClientEventId.SEND_LOCATIONS, ClientEventId.SEND_CHANNELS,
        ClientEventId.SEND_SCENES] ∧
    drain_client_events clientRegOutcome.state "Test"
        [ClientEventId.SEND_LOCATIONS, ClientEventId.SEND_CHANNELS,
          ClientEventId.SEND_SCENES] =
      some (ScMessage.location_pack (send_locations "Test") ::
        (fixturePacks.map ScMessage.channel_pack ++
          [ScMessage.scene_pack send_scenes])) ∧
    ∀ p ∈ fixturePacks, p.items.length ≤ CHANNELPACK_MAXCOUNT := by
  have h := register_client_schedules_sends fixtureState 30 1000 msgRegisterClient
    (by decide)
  have h2 := h.2.1 "Test" fixturePacks (by decide)
  refine ⟨h.1, ?_, h2.2⟩
  have hdr := h2.1
  rw [h.1] at hdr
  exact hdr

/-- C9: `batched` over an empty sequence yields one empty batch, and
therefore both `send_channels` and the `device_connected` client event
handler hit the `IndexError` of `items[-1]` (modelled as `none`)
exactly when there is no channel to send: they complete only when the
world (respectively the connecting device) has at least one channel. -/
theorem empty_channels_cause_index_error :
    (∀ n : Nat, batched ([] : List Nat) n = [[]]) ∧
    (∀ st : ServerState, st.channels = [] → send_channels st = none) ∧
    (∀ (st : ServerState) (did : Nat) (device : Device),
      st.get_device did = some device → device.channel_ids = [] →
      device_connected_event st did = none) := by
  refine ⟨fun n => rfl, fun st h => ?_, fun st did device hdev hch => ?_⟩
  · simp only [send_channels, send_channels_packs, h]
    rfl
  · simp only [device_connected_event, hdev, hch]
    rfl

/-- Witness for C9: the boundary world with an online device owning no
channels. -/
theorem empty_channels_cause_index_error_witness :
    batched ([] : List Nat) 5 = [[]] ∧
    send_channels emptyChannelsState = none ∧
    device_connected_event emptyChannelsState 1 = none :=
  ⟨empty_channels_cause_index_error.1 5,
    empty_channels_cause_index_error.2.1 emptyChannelsState rfl,
    empty_channels_cause_index_error.2.2 emptyChannelsState 1 _ rfl rfl⟩

/-- Every item built by `buildValueItems` reports the device's online
flag. -/
theorem buildValueItems_online (st : ServerState) (device : Device) :
    ∀ (l : List Nat) (items : List TSC_ChannelValue_B),
      buildValueItems st device l = some items →
      ∀ it ∈ items, it.online = device.online
  | [], items => by
    intro h
    simp only [buildValueItems] at h
    cases h
    simp
  | cid :: rest, items => by
    intro h
    cases hch : st.get_channel cid with
    | none => simp only [buildValueItems, hch] at h; cases h
    | some channel =>
      cases hrest : buildValueItems st device rest with
      | none => simp only [buildValueItems, hch, hrest] at h; cases h
      | some items2 =>
        simp only [buildValueItems, hch, hrest] at h
        cases h
        intro it hit
        rcases List.mem_cons.mp hit with hit | hit
        · subst hit
          rfl
        · exact buildValueItems_online st device rest items2 hrest it hit

/-- Every item of every pack built by the `device_connected` loop
reports the device's online flag. -/
theorem deviceConnectedGo_online (st : ServerState) (device : Device) :
    ∀ (batches : List (List Nat)) (tl : Nat) (packs : List TSC_ChannelValuePack_B),
      deviceConnectedGo st device batches tl = some packs →
      ∀ p ∈ packs, ∀ it ∈ p.items, it.online = device.online
  | [], tl, packs => by
    intro h
    simp only [deviceConnectedGo] at h
    cases h
    simp
  | batch :: rest, tl, packs => by
    intro h
    cases hitems : buildValueItems st device batch with
    | none => simp only [deviceConnectedGo, hitems] at h; cases h
    | some items =>
      cases hmark : markLast (fun it => { it with eol := true }) items with
      | none => simp only [deviceConnectedGo, hitems, hmark] at h; cases h
      | some items2 =>
        cases hrec : deviceConnectedGo st device rest (tl - items2.length) with
        | none => simp only [deviceConnectedGo, hitems, hmark, hrec] at h; cases h
        | some packs2 =>
          simp only [deviceConnectedGo, hitems, hmark, hrec] at h
          cases h
          intro p hp
          rcases List.mem_cons.mp hp with hp | hp
          · subst hp
            intro it hit
            exact markLast_preserves (fun it => { it with eol := true })
              (fun x => x.online = device.online)
              (fun x hx => hx) items items2 hmark
              (buildValueItems_online st device batch items hitems) it hit
          · exact deviceConnectedGo_online st device rest (tl - items2.length)
              packs2 hrec p hp

/-- C10: the `CHANNEL_VALUE_CHANGED` client handler sends a single-item
value pack whose item carries `online = true` unconditionally -
independent of the owning device's online flag - whereas the packs sent
by the `device_connected` handler (for `DEVICE_CONNECTED` and
`DEVICE_DISCONNECTED`) report the device's current online flag in every
item. -/
theorem channel_value_changed_online_unconditional :
    (∀ (st : ServerState) (cid : Nat) (v : Bytes) (c : Channel),
      st.get_channel cid = some c →
      channel_value_changed st cid v =
        some ⟨0, [⟨true, c.id, true, ⟨v, zeros8, 0⟩⟩]⟩) ∧
    (∀ (st : ServerState) (did : Nat) (device : Device)
        (packs : List TSC_ChannelValuePack_B),
      st.get_device did = some device → device_connected_event st did = some packs →
      ∀ p ∈ packs, ∀ it ∈ p.items, it.online = device.online) := by
  constructor
  · intro st cid v c hc
    simp only [channel_value_changed, hc]
  · intro st did device packs hdev h
    simp only [device_connected_event, hdev] at h
    exact deviceConnectedGo_online st device _ _ packs h

/-- Witness for C10: on the fixture state device 1 is offline, yet the
value-changed pack for its channel 1 reports `online = true`; the
device-connected packs for device 1 all report `online = false`. -/
theorem channel_value_changed_online_unconditional_witness :
    channel_value_changed fixtureState 1 zeros8 =
      some ⟨0, [⟨true, chRelay.id, true, ⟨zeros8, zeros8, 0⟩⟩]⟩ ∧
    (fixtureState.get_device 1).map (fun d => d.online) = some false :=
  ⟨channel_value_changed_online_unconditional.1 fixtureState 1 zeros8 chRelay rfl,
    rfl⟩

end SuplaLite
